import Mathlib

/-
Shallow embedding of src/app.py (VuaChuyenHang Pro): the order-derivation
logic of create_order and update_order, the tracking-number generation,
and the receipt renderer generate_order_pdf / draw_text.

Conventions of the embedding:
* A submitted form is a partial map from field name to raw string
  (form.get returns None when the key is absent), modelled as
  String -> Option String.
* Python float values are modelled as rationals; the numeric literals the
  app handles are decimal strings, which are exact rationals.  Python
  float(s) and int(s) are modelled by pyFloat / pyInt below, covering the
  standard ASCII decimal notation (optional surrounding whitespace, an
  optional sign, digits, a decimal point, an optional exponent for floats).
  Exotic inputs Python also accepts (inf, nan, underscore separators,
  non-ASCII digits) are outside the model; no claim depends on them.
* A Python str is modelled as a Lean String; where character-level
  reasoning is needed (uuid splitting, uppercasing) a List Char is used.
* The random uuid4 value is an explicit 128-bit-number input.
* Pillow is an external capability: text measurement is a parameter
  (FontMetrics) and truetype-font availability a Boolean; the rendered
  document is the trace of draw operations together with the raster
  geometry and the resolution declared when the PDF is saved.
-/

namespace VuaChuyenHang

/-- A parsed form: form.get k is modelled as f k, none when absent. -/
abbrev Form : Type := String → Option String

/-- Override one key of a form (used to state that a key is ignored). -/
def setKey (f : Form) (k : String) (v : Option String) : Form :=
  fun k2 => if k2 = k then v else f k2

/-- Whitespace characters stripped by Python str parsing. -/
def isWs (c : Char) : Bool :=
  c = ' ' || c = '\t' || c = '\n' || c = '\r' || c = '\x0b' || c = '\x0c'

/-- Strip leading and trailing whitespace, as Python int()/float() do. -/
def stripChars (l : List Char) : List Char :=
  ((l.dropWhile isWs).reverse.dropWhile isWs).reverse

/-- Value of a big-endian list of decimal digit characters. -/
def natOfDigits (l : List Char) : Nat :=
  l.foldl (fun a c => a * 10 + (c.toNat - 48)) 0

/-- Read an optional leading sign. -/
def readSign : List Char → Int × List Char
  | '+' :: r => (1, r)
  | '-' :: r => (-1, r)
  | r => (1, r)

/-- Python int(s) on a stripped character list. -/
def pyIntCore (l : List Char) : Option Int :=
  let (sg, r) := readSign l
  let (ds, rest) := r.span Char.isDigit
  if ds.isEmpty || !rest.isEmpty then none
  else some (sg * (natOfDigits ds : Int))

/-- Python int(s): None on anything but an optionally signed decimal. -/
def pyInt (s : String) : Option Int :=
  pyIntCore (stripChars s.data)

/-- Exponent part of a float literal: e or E already consumed. -/
def pyExpPart (m : ℚ) (l : List Char) : Option ℚ :=
  let (es, r) := readSign l
  let (ed, rest) := r.span Char.isDigit
  if ed.isEmpty || !rest.isEmpty then none
  else some (m * (10 : ℚ) ^ (es * (natOfDigits ed : Int)))

/-- Python float(s) on a stripped character list. -/
def pyFloatCore (l : List Char) : Option ℚ :=
  let (sg, r1) := readSign l
  let (ip, r2) := r1.span Char.isDigit
  let (fp, r3) :=
    match r2 with
    | '.' :: t => t.span Char.isDigit
    | _ => ([], r2)
  if ip.isEmpty && fp.isEmpty then none
  else
    let mant : ℚ := (natOfDigits ip : ℚ) + (natOfDigits fp : ℚ) / (10 : ℚ) ^ fp.length
    let signed : ℚ := (sg : ℚ) * mant
    match r3 with
    | [] => some signed
    | 'e' :: t => pyExpPart signed t
    | 'E' :: t => pyExpPart signed t
    | _ => none

/-- Python float(s): None on any malformed numeric string. -/
def pyFloat (s : String) : Option ℚ :=
  pyFloatCore (stripChars s.data)

/-- The try/except float conversion of app.py lines 257-268: a missing
key (TypeError) or a malformed string (ValueError) yields 0.0. -/
def floatOr0 (o : Option String) : ℚ :=
  (o.bind pyFloat).getD 0

/-- Python `x or d` for an optional string x: None and the empty string
are falsy and give d. -/
def pyOr (o : Option String) (d : String) : String :=
  match o with
  | none => d
  | some s => if s = "" then d else s

/-- Lowercase hexadecimal digit character, as in the str() of a uuid. -/
def hexDigit (n : Nat) : Char :=
  if n < 10 then Char.ofNat (48 + n) else Char.ofNat (87 + n)

/-- Big-endian hexadecimal rendering of n, zero-padded to k digits. -/
def natToHexPad : Nat → Nat → List Char
  | 0, _ => []
  | k + 1, n => natToHexPad k (n / 16) ++ [hexDigit (n % 16)]

/-- str(uuid.uuid4()) for the 128-bit value u: 32 lowercase hex digits in
groups of 8-4-4-4-12 separated by hyphens. -/
def uuidCanonical (u : Nat) : List Char :=
  (natToHexPad 32 u).take 8
    ++ ('-' :: (((natToHexPad 32 u).drop 8).take 4
    ++ ('-' :: (((natToHexPad 32 u).drop 12).take 4
    ++ ('-' :: (((natToHexPad 32 u).drop 16).take 4
    ++ ('-' :: (natToHexPad 32 u).drop 20)))))))

/-- Python str.split(sep) on a character list (sep a single character). -/
def pySplit (sep : Char) : List Char → List (List Char)
  | [] => [[]]
  | c :: rest =>
    if c = sep then [] :: pySplit sep rest
    else
      match pySplit sep rest with
      | [] => [[c]]
      | g :: gs => (c :: g) :: gs

/-- Python str.upper() on a character list (ASCII suffices here). -/
def pyUpper (l : List Char) : List Char := l.map Char.toUpper

/-- app.py line 271: str(uuid.uuid4()).split("-")[0].upper(). -/
def trackingNumber (u : Nat) : List Char :=
  pyUpper ((pySplit '-' (uuidCanonical u)).headD [])

/-- A row of the orders table as built by create_order / update_order
(the autoincrement id is assigned by storage and not part of the row). -/
structure OrderRow where
  sender_id : Int
  receiver_name : String
  receiver_address : String
  receiver_phone : String
  exchange_rate : ℚ
  amount : ℚ
  fee : ℚ
  total : ℚ
  send_date : String
  tracking_number : List Char
  status : String
deriving DecidableEq, Repr, Inhabited

/-- The only derivation failure: int(form.get("sender_id")) raising. -/
inductive DeriveError
  | invalidInput
deriving DecidableEq, Repr

/-- app.py lines 243-297 (create_order), up to the INSERT: derive the row
stored for a new order.  u is the random uuid4 value. -/
def create_order (form : Form) (u : Nat) : Except DeriveError OrderRow :=
  match (form "sender_id").bind pyInt with
  | none => .error .invalidInput
  | some sid =>
    let amount := floatOr0 (form "amount")
    let fee := floatOr0 (form "fee")
    .ok
      { sender_id := sid
      , receiver_name := pyOr (form "receiver_name") ""
      , receiver_address := pyOr (form "receiver_address") ""
      , receiver_phone := pyOr (form "receiver_phone") ""
      , exchange_rate := floatOr0 (form "exchange_rate")
      , amount := amount
      , fee := fee
      , total := amount + fee
      , send_date := pyOr (form "send_date") ""
      , tracking_number := trackingNumber u
      , status := "New" }

/-- app.py lines 317-364 (update_order), up to the UPDATE: derive the row
stored for an edited order.  The SET clause does not name
tracking_number, so the existing value is preserved. -/
def update_order (existing : OrderRow) (form : Form) : Except DeriveError OrderRow :=
  match (form "sender_id").bind pyInt with
  | none => .error .invalidInput
  | some sid =>
    let amount := floatOr0 (form "amount")
    let fee := floatOr0 (form "fee")
    .ok
      { existing with
        sender_id := sid
      , receiver_name := pyOr (form "receiver_name") ""
      , receiver_address := pyOr (form "receiver_address") ""
      , receiver_phone := pyOr (form "receiver_phone") ""
      , exchange_rate := floatOr0 (form "exchange_rate")
      , amount := amount
      , fee := fee
      , total := amount + fee
      , send_date := pyOr (form "send_date") ""
      , status := pyOr (form "status") "New" }

/-- A loaded Pillow font object: either a truetype font (path and size)
or the built-in ImageFont.load_default(). -/
inductive FontSpec
  | truetype (path : String) (size : Nat)
  | defaultFont
deriving DecidableEq, Repr

/-- The three font roles of the receipt (app.py lines 453-465). -/
structure Fonts where
  font_title : FontSpec
  font_section : FontSpec
  font : FontSpec
deriving DecidableEq, Repr

/-- app.py lines 453-465: load the three truetype fonts; if loading
raises (modelled by truetypeAvailable = false) fall back to the single
built-in default font for all three roles. -/
def loadFonts (truetypeAvailable : Bool) : Fonts :=
  if truetypeAvailable then
    { font_title := .truetype "/usr/share/fonts/truetype/dejavu/DejaVuSans-Bold.ttf" 32
    , font_section := .truetype "/usr/share/fonts/truetype/dejavu/DejaVuSans-Bold.ttf" 24
    , font := .truetype "/usr/share/fonts/truetype/dejavu/DejaVuSans.ttf" 20 }
  else
    { font_title := .defaultFont, font_section := .defaultFont, font := .defaultFont }

/-- External text-measurement capability: draw.textlength(text, font). -/
structure FontMetrics where
  textlength : FontSpec → String → Int

/-- One call of draw.text: its position, text and font. -/
structure DrawnLine where
  x : Int
  y : Int
  text : String
  fontUsed : FontSpec
deriving DecidableEq, Repr

/-- The align argument of draw_text. -/
inductive Align
  | left
  | center
  | right
deriving DecidableEq, Repr

/-- The mutable rendering state: the vertical cursor y and the trace of
draw.text calls made so far. -/
structure DrawState where
  y : Int
  lines : List DrawnLine
deriving DecidableEq, Repr

/-- app.py line 444: dpi = 200. -/
def dpi : Nat := 200

/-- app.py lines 445-446: 4 x 6 inches at dpi gives the pixel canvas. -/
def width_px : Nat := 4 * dpi

def height_px : Nat := 6 * dpi

/-- app.py line 469: line_spacing = 28. -/
def line_spacing : Int := 28

/-- app.py lines 471-483 (draw_text): compute the x position from the
alignment (integer floor division for centering, as Python //), draw the
text at the current cursor, then advance the cursor by line_spacing. -/
def draw_text (m : FontMetrics) (s : DrawState) (x : Int) (text : String)
    (font_obj : FontSpec) (align : Align) : DrawState :=
  let x_pos : Int :=
    match align with
    | .center => Int.fdiv ((width_px : Int) - m.textlength font_obj text) 2
    | .right => (width_px : Int) - x - m.textlength font_obj text
    | .left => x
  { y := s.y + line_spacing
  , lines := s.lines ++ [{ x := x_pos, y := s.y, text := text, fontUsed := font_obj }] }

/-- The joined record of order_pdf (app.py lines 386-396): every orders
column plus the five sender display columns.  The LEFT JOIN makes the
sender columns NULL when no customer matches, hence Option String. -/
structure JoinedOrder where
  tracking_number : String
  send_date : String
  sender_name : Option String
  sender_driver_license : Option String
  sender_birth_date : Option String
  sender_address : Option String
  sender_phone : Option String
  receiver_name : String
  receiver_address : String
  receiver_phone : String
  exchange_rate : ℚ
  amount : ℚ
  fee : ℚ
  total : ℚ
  status : String
deriving DecidableEq, Repr

/-- Python f-string interpolation of a nullable column: None prints as
the four characters None, a string prints as itself. -/
def pyShow (o : Option String) : String :=
  match o with
  | none => "None"
  | some s => s

/-- Stringification of a stored REAL for the receipt.  Python prints the
repr of the float; the exact digit string is outside the model and no
claim depends on it, so the Rat printer stands in for it. -/
def showReal (q : ℚ) : String := toString q

/-- The saved document: raster geometry, the resolution declared on
img.save (app.py line 524), and the trace of drawn text lines. -/
structure Doc where
  width_px : Nat
  height_px : Nat
  resolution : Nat
  lines : List DrawnLine
deriving Repr

/-- app.py lines 433-525 (generate_order_pdf): the fixed 4 x 6 receipt
layout.  The horizontal divider rule (draw.line, line 487) is a graphic,
not text; only its cursor bump y += 15 is modelled, like the y += 10
gaps between sections. -/
def generate_order_pdf (m : FontMetrics) (truetypeAvailable : Bool)
    (order : JoinedOrder) : Doc :=
  let fonts := loadFonts truetypeAvailable
  let s0 : DrawState := { y := 20, lines := [] }
  let s1 := draw_text m s0 0 "VUACHUYENHANG.COM" fonts.font_title .center
  let s1 := { s1 with y := s1.y + 15 }
  let s2 := draw_text m s1 40 ("Tracking: " ++ order.tracking_number) fonts.font .left
  let s3 := draw_text m s2 40 ("Date: " ++ order.send_date) fonts.font .left
  let s3 := { s3 with y := s3.y + 10 }
  let s4 := draw_text m s3 40 "Sender" fonts.font_section .left
  let s5 := draw_text m s4 60 ("Name: " ++ pyShow order.sender_name) fonts.font .left
  let s6 := draw_text m s5 60 ("License: " ++ pyOr order.sender_driver_license "") fonts.font .left
  let s7 := draw_text m s6 60 ("Birth: " ++ pyOr order.sender_birth_date "") fonts.font .left
  let s8 := draw_text m s7 60 ("Address: " ++ pyOr order.sender_address "") fonts.font .left
  let s9 := draw_text m s8 60 ("Phone: " ++ pyOr order.sender_phone "") fonts.font .left
  let s9 := { s9 with y := s9.y + 10 }
  let s10 := draw_text m s9 40 "Receiver" fonts.font_section .left
  let s11 := draw_text m s10 60 ("Name: " ++ order.receiver_name) fonts.font .left
  let s12 := draw_text m s11 60 ("Address: " ++ order.receiver_address) fonts.font .left
  let s13 := draw_text m s12 60 ("Phone: " ++ order.receiver_phone) fonts.font .left
  let s13 := { s13 with y := s13.y + 10 }
  let s14 := draw_text m s13 40 "Details" fonts.font_section .left
  let s15 := draw_text m s14 60 ("Exchange rate: " ++ showReal order.exchange_rate) fonts.font .left
  let s16 := draw_text m s15 60 ("Amount: " ++ showReal order.amount) fonts.font .left
  let s17 := draw_text m s16 60 ("Fee: " ++ showReal order.fee) fonts.font .left
  let s18 := draw_text m s17 60 ("Total: " ++ showReal order.total) fonts.font .left
  let s19 := draw_text m s18 60 ("Status: " ++ order.status) fonts.font .left
  { width_px := width_px, height_px := height_px, resolution := dpi, lines := s19.lines }

/-- Uppercase hexadecimal alphabet of the claimed tracking format. -/
def isUpperHex (c : Char) : Bool :=
  ('0' ≤ c && c ≤ '9') || ('A' ≤ c && c ≤ 'F')

/- Concrete fixtures used by witness theorems. -/

/-- A form with sender_id 7, amount 100, fee 5 and nothing else. -/
def exampleForm : Form := fun k =>
  if k = "sender_id" then some "7"
  else if k = "amount" then some "100"
  else if k = "fee" then some "5"
  else none

/-- A form with no fields at all. -/
def emptyForm : Form := fun _ => none

/-- The row create_order derives from exampleForm with uuid value 0
(extracted from the computation; create_order succeeds on exampleForm). -/
def exRowCreate : OrderRow :=
  match create_order exampleForm 0 with
  | .ok r => r
  | .error _ => default

/-- A pre-existing stored row with a distinctive tracking number. -/
def exRowPrev : OrderRow :=
  { sender_id := 3, receiver_name := "Ba Tran", receiver_address := "HCMC"
  , receiver_phone := "555", exchange_rate := 25, amount := 1, fee := 2
  , total := 3, send_date := "2024-01-01"
  , tracking_number := ['A', 'B', 'C', '1', '2', '3', '4', '5']
  , status := "Shipped" }

/-- The row update_order derives from exRowPrev and exampleForm. -/
def exRowAfter : OrderRow :=
  match update_order exRowPrev exampleForm with
  | .ok r => r
  | .error _ => default

/-- A 128-bit value whose canonical uuid string starts b000000a. -/
def exUuid : Nat := 11 * 16 ^ 31 + 10 * 16 ^ 24

/-- The row create_order derives from exampleForm with uuid exUuid. -/
def exRowCreateU : OrderRow :=
  match create_order exampleForm exUuid with
  | .ok r => r
  | .error _ => default

/-- A trivial measurement capability for closed evaluations. -/
def zeroMetrics : FontMetrics := { textlength := fun _ _ => 0 }

/-- A joined record whose sender row is absent (LEFT JOIN miss): all five
sender columns are NULL. -/
def nullSenderOrder : JoinedOrder :=
  { tracking_number := "ABCD1234", send_date := "2024-01-01"
  , sender_name := none, sender_driver_license := none
  , sender_birth_date := none, sender_address := none, sender_phone := none
  , receiver_name := "Ba Tran", receiver_address := "HCMC"
  , receiver_phone := "555", exchange_rate := 0, amount := 100, fee := 5
  , total := 105, status := "New" }

/- Helper lemmas. -/

theorem setKey_ne (f : Form) (k : String) (v : Option String) (k2 : String)
    (h : k2 ≠ k) : setKey f k v k2 = f k2 := by
  simp [setKey, h]

theorem natToHexPad_length (k : Nat) : ∀ n, (natToHexPad k n).length = k := by
  induction k with
  | zero => intro n; rfl
  | succ k ih => intro n; simp [natToHexPad, ih]

theorem mem_natToHexPad {c : Char} :
    ∀ {k n : Nat}, c ∈ natToHexPad k n → ∃ m, m < 16 ∧ c = hexDigit m := by
  intro k
  induction k with
  | zero => intro n h; simp [natToHexPad] at h
  | succ k ih =>
    intro n h
    simp only [natToHexPad, List.mem_append, List.mem_singleton] at h
    rcases h with h | h
    · exact ih h
    · exact ⟨n % 16, Nat.mod_lt _ (by norm_num), h⟩

theorem hexDigit_facts {m : Nat} (h : m < 16) :
    hexDigit m ≠ '-' ∧ isUpperHex (hexDigit m).toUpper = true := by
  have key : ∀ m2 : Fin 16, hexDigit m2.1 ≠ '-' ∧
      isUpperHex (hexDigit m2.1).toUpper = true := by decide
  exact key ⟨m, h⟩

theorem pySplit_first (sep : Char) (xs ys : List Char) (h : sep ∉ xs) :
    pySplit sep (xs ++ sep :: ys) = xs :: pySplit sep ys := by
  induction xs with
  | nil => simp [pySplit]
  | cons c t ih =>
    have hc : ¬c = sep := fun hc => h (by simp [hc])
    have ht : sep ∉ t := fun hm => h (List.mem_cons_of_mem _ hm)
    simp [pySplit, hc, ih ht]

theorem uuid_first_seg (u : Nat) :
    (pySplit '-' (uuidCanonical u)).headD [] = (natToHexPad 32 u).take 8 := by
  have hnot : ('-' : Char) ∉ (natToHexPad 32 u).take 8 := by
    intro hmem
    obtain ⟨m, hm, hc⟩ := mem_natToHexPad (List.take_subset _ _ hmem)
    exact (hexDigit_facts hm).1 hc.symm
  unfold uuidCanonical
  rw [pySplit_first '-' _ _ hnot]
  simp only [List.headD_cons]

theorem trackingNumber_length (u : Nat) : (trackingNumber u).length = 8 := by
  unfold trackingNumber pyUpper
  rw [uuid_first_seg]
  simp [natToHexPad_length]

theorem trackingNumber_upperHex (u : Nat) :
    ∀ c ∈ trackingNumber u, isUpperHex c = true := by
  intro c hc
  unfold trackingNumber pyUpper at hc
  rw [uuid_first_seg] at hc
  simp only [List.mem_map] at hc
  obtain ⟨c0, hc0, rfl⟩ := hc
  obtain ⟨m, hm, rfl⟩ := mem_natToHexPad (List.take_subset _ _ hc0)
  exact (hexDigit_facts hm).2

/- Claim theorems. -/

/-- Claim C1: on every create and every update, the stored total equals
amount + fee as obtained from numeric normalization of the raw inputs,
and the total is recomputed fresh, never read from the input: overriding
an input key named total changes nothing. -/
theorem C1_total_recomputed :
    ∀ (form : Form) (u : Nat) (ex : OrderRow) (v : Option String),
      (∀ row, create_order form u = Except.ok row →
        row.total = row.amount + row.fee) ∧
      (∀ row, update_order ex form = Except.ok row →
        row.total = row.amount + row.fee) ∧
      create_order (setKey form "total" v) u = create_order form u ∧
      update_order ex (setKey form "total" v) = update_order ex form := by
  intro form u ex v
  refine ⟨?_, ?_, ?_, ?_⟩
  · intro row h
    unfold create_order at h
    cases hs : (form "sender_id").bind pyInt with
    | none => rw [hs] at h; exact absurd h (by simp)
    | some sid =>
      rw [hs] at h
      simp only [Except.ok.injEq] at h
      rw [← h]
  · intro row h
    unfold update_order at h
    cases hs : (form "sender_id").bind pyInt with
    | none => rw [hs] at h; exact absurd h (by simp)
    | some sid =>
      rw [hs] at h
      simp only [Except.ok.injEq] at h
      rw [← h]
  · simp [create_order, setKey]
  · simp [update_order, setKey]

/-- Claim C1 witness at a concrete form, uuid 0 and a concrete existing
row. -/
theorem C1_total_recomputed_witness :
    exRowCreate.total = exRowCreate.amount + exRowCreate.fee ∧
    exRowAfter.total = exRowAfter.amount + exRowAfter.fee :=
  ⟨(C1_total_recomputed exampleForm 0 exRowPrev (some "999")).1 exRowCreate rfl,
   (C1_total_recomputed exampleForm 0 exRowPrev (some "999")).2.1 exRowAfter rfl⟩

/-- Claim C2: derivation (create and edit) fails, with the InvalidInput
error, exactly when the sender_id field is missing or not parseable as
an integer; whenever sender_id parses to an integer the derivation
succeeds whatever the other fields hold, and missing receiver fields
default to the empty string. -/
theorem C2_sender_id_required :
    ∀ (form : Form) (u : Nat) (ex : OrderRow),
      ((form "sender_id").bind pyInt = none ↔
        create_order form u = Except.error DeriveError.invalidInput) ∧
      ((form "sender_id").bind pyInt = none ↔
        update_order ex form = Except.error DeriveError.invalidInput) ∧
      (∀ n, (form "sender_id").bind pyInt = some n →
        ∃ row, create_order form u = Except.ok row ∧ row.sender_id = n ∧
          (form "receiver_name" = none → row.receiver_name = "") ∧
          (form "receiver_address" = none → row.receiver_address = "") ∧
          (form "receiver_phone" = none → row.receiver_phone = "")) ∧
      (∀ n, (form "sender_id").bind pyInt = some n →
        ∃ row, update_order ex form = Except.ok row ∧ row.sender_id = n ∧
          (form "receiver_name" = none → row.receiver_name = "") ∧
          (form "receiver_address" = none → row.receiver_address = "") ∧
          (form "receiver_phone" = none → row.receiver_phone = "")) := by
  intro form u ex
  refine ⟨?_, ?_, ?_, ?_⟩
  · unfold create_order
    cases hs : (form "sender_id").bind pyInt <;> simp [hs]
  · unfold update_order
    cases hs : (form "sender_id").bind pyInt <;> simp [hs]
  · intro n hn
    unfold create_order
    rw [hn]
    exact ⟨_, rfl, rfl,
      fun h => by simp [pyOr, h], fun h => by simp [pyOr, h],
      fun h => by simp [pyOr, h]⟩
  · intro n hn
    unfold update_order
    rw [hn]
    exact ⟨_, rfl, rfl,
      fun h => by simp [pyOr, h], fun h => by simp [pyOr, h],
      fun h => by simp [pyOr, h]⟩

/-- Claim C2 witness: the empty form fails with InvalidInput, and a form
with only numeric fields succeeds with blank receiver fields. -/
theorem C2_sender_id_required_witness :
    create_order emptyForm 0 = Except.error DeriveError.invalidInput ∧
    ∃ row, create_order exampleForm 0 = Except.ok row ∧ row.sender_id = 7 ∧
      (exampleForm "receiver_name" = none → row.receiver_name = "") ∧
      (exampleForm "receiver_address" = none → row.receiver_address = "") ∧
      (exampleForm "receiver_phone" = none → row.receiver_phone = "") :=
  ⟨(C2_sender_id_required emptyForm 0 exRowPrev).1.mp (by decide),
   (C2_sender_id_required exampleForm 0 exRowPrev).2.2.1 7 (by decide)⟩

/-- Claim C3: each of exchange_rate, amount and fee is parsed
independently of the other fields: in every successfully derived row the
field equals the silent-default parse of its own raw input alone, and a
missing, empty or unparseable raw input yields exactly 0.0 for that
field without failing the derivation. -/
theorem C3_numeric_silent_default :
    ∀ (form : Form) (u : Nat) (ex : OrderRow),
      (∀ row, create_order form u = Except.ok row →
        row.exchange_rate = floatOr0 (form "exchange_rate") ∧
        row.amount = floatOr0 (form "amount") ∧
        row.fee = floatOr0 (form "fee")) ∧
      (∀ row, update_order ex form = Except.ok row →
        row.exchange_rate = floatOr0 (form "exchange_rate") ∧
        row.amount = floatOr0 (form "amount") ∧
        row.fee = floatOr0 (form "fee")) ∧
      (∀ o : Option String, o.bind pyFloat = none → floatOr0 o = 0) := by
  intro form u ex
  refine ⟨?_, ?_, ?_⟩
  · intro row h
    unfold create_order at h
    cases hs : (form "sender_id").bind pyInt with
    | none => rw [hs] at h; exact absurd h (by simp)
    | some sid =>
      rw [hs] at h
      simp only [Except.ok.injEq] at h
      rw [← h]
      exact ⟨rfl, rfl, rfl⟩
  · intro row h
    unfold update_order at h
    cases hs : (form "sender_id").bind pyInt with
    | none => rw [hs] at h; exact absurd h (by simp)
    | some sid =>
      rw [hs] at h
      simp only [Except.ok.injEq] at h
      rw [← h]
      exact ⟨rfl, rfl, rfl⟩
  · intro o h
    unfold floatOr0
    rw [h]
    rfl

/-- Claim C3 witness: a malformed amount, an empty fee and a missing
exchange_rate each default to 0.0. -/
theorem C3_numeric_silent_default_witness :
    exRowCreate.amount = floatOr0 (exampleForm "amount") ∧
    floatOr0 (some "abc") = 0 ∧ floatOr0 (some "") = 0 ∧
    floatOr0 none = 0 :=
  ⟨((C3_numeric_silent_default exampleForm 0 exRowPrev).1 exRowCreate rfl).2.1,
   (C3_numeric_silent_default exampleForm 0 exRowPrev).2.2 (some "abc") (by decide),
   (C3_numeric_silent_default exampleForm 0 exRowPrev).2.2 (some "") (by decide),
   (C3_numeric_silent_default exampleForm 0 exRowPrev).2.2 none (by decide)⟩

/-- Claim C4: editing an order never touches its tracking_number: for
every existing row and every raw edit input, a successful update leaves
tracking_number equal to the existing value. -/
theorem C4_tracking_preserved_on_edit :
    ∀ (ex : OrderRow) (form : Form) (row : OrderRow),
      update_order ex form = Except.ok row →
      row.tracking_number = ex.tracking_number := by
  intro ex form row h
  unfold update_order at h
  cases hs : (form "sender_id").bind pyInt with
  | none => rw [hs] at h; exact absurd h (by simp)
  | some sid =>
    rw [hs] at h
    simp only [Except.ok.injEq] at h
    rw [← h]

/-- Claim C4 witness: editing a concrete stored row with a concrete form
keeps the tracking number ABC12345. -/
theorem C4_tracking_preserved_on_edit_witness :
    exRowAfter.tracking_number = exRowPrev.tracking_number :=
  C4_tracking_preserved_on_edit exRowPrev exampleForm exRowAfter rfl

/-- Claim C5: every created row carries the tracking number obtained by
uppercasing the first hyphen-delimited segment of the canonical uuid
string; for every uuid value this token has exactly 8 characters, all in
the uppercase hexadecimal alphabet. -/
theorem C5_tracking_format :
    ∀ (form : Form) (u : Nat) (row : OrderRow),
      create_order form u = Except.ok row →
      row.tracking_number =
        pyUpper ((pySplit '-' (uuidCanonical u)).headD []) ∧
      row.tracking_number.length = 8 ∧
      (∀ c ∈ row.tracking_number, isUpperHex c = true) := by
  intro form u row h
  have htr : row.tracking_number = trackingNumber u := by
    unfold create_order at h
    cases hs : (form "sender_id").bind pyInt with
    | none => rw [hs] at h; exact absurd h (by simp)
    | some sid =>
      rw [hs] at h
      simp only [Except.ok.injEq] at h
      rw [← h]
  rw [htr]
  exact ⟨rfl, trackingNumber_length u, trackingNumber_upperHex u⟩

/-- Claim C5 witness at a concrete uuid value whose token is B000000A. -/
theorem C5_tracking_format_witness :
    exRowCreateU.tracking_number =
      pyUpper ((pySplit '-' (uuidCanonical exUuid)).headD []) ∧
    exRowCreateU.tracking_number.length = 8 ∧
    (∀ c ∈ exRowCreateU.tracking_number, isUpperHex c = true) :=
  C5_tracking_format exampleForm exUuid exRowCreateU rfl

/-- Claim C10: a created row always has status New, and any status key
in the creation input is ignored: overriding it changes nothing. -/
theorem C10_status_new_on_create :
    ∀ (form : Form) (u : Nat) (v : Option String),
      (∀ row, create_order form u = Except.ok row → row.status = "New") ∧
      create_order (setKey form "status" v) u = create_order form u := by
  intro form u v
  constructor
  · intro row h
    unfold create_order at h
    cases hs : (form "sender_id").bind pyInt with
    | none => rw [hs] at h; exact absurd h (by simp)
    | some sid =>
      rw [hs] at h
      simp only [Except.ok.injEq] at h
      rw [← h]
  · simp [create_order, setKey]

/-- Claim C10 witness: the concrete created row has status New even when
the input carries a status key. -/
theorem C10_status_new_on_create_witness :
    exRowCreate.status = "New" ∧
    create_order (setKey exampleForm "status" (some "Shipped")) 0 =
      create_order exampleForm 0 :=
  ⟨(C10_status_new_on_create exampleForm 0 (some "Shipped")).1 exRowCreate rfl,
   (C10_status_new_on_create exampleForm 0 (some "Shipped")).2⟩

/-- Claim C6 counterexample: on a record whose sender columns are all
NULL, the Name line of the receipt renders as the text Name: None, not
as the blank Name: the claim asserts for every optional sender field. -/
theorem C6_sender_blank_counterexample :
    nullSenderOrder.sender_name = none ∧
    ((generate_order_pdf zeroMetrics true nullSenderOrder).lines.map
        DrawnLine.text).get? 4 = some "Name: None" ∧
    "Name: None" ≠ "Name: " := by
  refine ⟨rfl, rfl, by decide⟩

/-- Claim C6 (amended): of the five sender fields only license, birth
date, address and phone are guarded by the or-empty idiom and render as
a bare label when NULL; the sender name is interpolated unguarded, so a
NULL sender name renders as the text None. -/
theorem C6_sender_blank_amended :
    ∀ (m : FontMetrics) (b : Bool) (o : JoinedOrder),
      o.sender_driver_license = none → o.sender_birth_date = none →
      o.sender_address = none → o.sender_phone = none →
      (generate_order_pdf m b o).lines.map DrawnLine.text =
        ["VUACHUYENHANG.COM",
         "Tracking: " ++ o.tracking_number,
         "Date: " ++ o.send_date,
         "Sender",
         "Name: " ++ pyShow o.sender_name,
         "License: ", "Birth: ", "Address: ", "Phone: ",
         "Receiver",
         "Name: " ++ o.receiver_name,
         "Address: " ++ o.receiver_address,
         "Phone: " ++ o.receiver_phone,
         "Details",
         "Exchange rate: " ++ showReal o.exchange_rate,
         "Amount: " ++ showReal o.amount,
         "Fee: " ++ showReal o.fee,
         "Total: " ++ showReal o.total,
         "Status: " ++ o.status] ∧
      (o.sender_name = none → pyShow o.sender_name = "None") := by
  intro m b o h1 h2 h3 h4
  constructor
  · simp [generate_order_pdf, draw_text, h1, h2, h3, h4, pyOr]
  · intro h5
    rw [h5]
    rfl

/-- Claim C6 amended witness on the all-NULL-sender record. -/
theorem C6_sender_blank_amended_witness :
    (generate_order_pdf zeroMetrics true nullSenderOrder).lines.map
        DrawnLine.text =
      ["VUACHUYENHANG.COM",
       "Tracking: " ++ nullSenderOrder.tracking_number,
       "Date: " ++ nullSenderOrder.send_date,
       "Sender",
       "Name: " ++ pyShow nullSenderOrder.sender_name,
       "License: ", "Birth: ", "Address: ", "Phone: ",
       "Receiver",
       "Name: " ++ nullSenderOrder.receiver_name,
       "Address: " ++ nullSenderOrder.receiver_address,
       "Phone: " ++ nullSenderOrder.receiver_phone,
       "Details",
       "Exchange rate: " ++ showReal nullSenderOrder.exchange_rate,
       "Amount: " ++ showReal nullSenderOrder.amount,
       "Fee: " ++ showReal nullSenderOrder.fee,
       "Total: " ++ showReal nullSenderOrder.total,
       "Status: " ++ nullSenderOrder.status] ∧
    (nullSenderOrder.sender_name = none →
      pyShow nullSenderOrder.sender_name = "None") :=
  C6_sender_blank_amended zeroMetrics true nullSenderOrder rfl rfl rfl rfl

/-- Claim C7: rendering is total on any joined record: for every
measurement capability and every font-availability outcome the renderer
produces a document with a non-empty trace of 19 text lines, the text
content is identical whether or not the truetype fonts loaded, and a
font-load failure substitutes the single built-in font for all three
roles. -/
theorem C7_render_total :
    ∀ (m : FontMetrics) (b : Bool) (o : JoinedOrder),
      (generate_order_pdf m b o).lines.length = 19 ∧
      (generate_order_pdf m b o).lines.map DrawnLine.text =
        (generate_order_pdf m true o).lines.map DrawnLine.text ∧
      loadFonts false =
        { font_title := FontSpec.defaultFont
        , font_section := FontSpec.defaultFont
        , font := FontSpec.defaultFont } := by
  intro m b o
  refine ⟨?_, ?_, rfl⟩
  · simp [generate_order_pdf, draw_text]
  · simp [generate_order_pdf, draw_text]

/-- Claim C8: the canvas is rasterized at 200 dots per inch as an
800 by 1200 pixel area and the document is saved declaring the same
resolution, so the page size decodes to 4 by 6 inches. -/
theorem C8_page_geometry :
    ∀ (m : FontMetrics) (b : Bool) (o : JoinedOrder),
      (generate_order_pdf m b o).width_px = 800 ∧
      (generate_order_pdf m b o).height_px = 1200 ∧
      (generate_order_pdf m b o).resolution = dpi ∧
      dpi = 200 ∧
      (generate_order_pdf m b o).width_px =
        4 * (generate_order_pdf m b o).resolution ∧
      (generate_order_pdf m b o).height_px =
        6 * (generate_order_pdf m b o).resolution := by
  intro m b o
  exact ⟨rfl, rfl, rfl, rfl, rfl, rfl⟩

/-- Claim C9: every draw_text call draws its text at the current
vertical cursor and then advances the cursor by exactly the 28-pixel
line height, whatever the alignment (alignment only enters the
horizontal position); the cursor of the receipt starts at 20, as the
concrete vertical trace of the rendered lines shows. -/
theorem C9_vertical_cursor :
    ∀ (m : FontMetrics) (s : DrawState) (x : Int) (t : String)
      (fo : FontSpec) (a : Align) (b : Bool) (o : JoinedOrder),
      (draw_text m s x t fo a).y = s.y + line_spacing ∧
      line_spacing = 28 ∧
      (∃ xp, (draw_text m s x t fo a).lines =
        s.lines ++ [{ x := xp, y := s.y, text := t, fontUsed := fo }]) ∧
      (generate_order_pdf m b o).lines.map DrawnLine.y =
        [20, 63, 91, 129, 157, 185, 213, 241, 269, 307, 335, 363, 391,
         429, 457, 485, 513, 541, 569] := by
  intro m s x t fo a b o
  refine ⟨rfl, rfl, ⟨_, rfl⟩, ?_⟩
  simp [generate_order_pdf, draw_text, line_spacing]

end VuaChuyenHang
